import Mathlib

/-!
Verification of the signature subsystem: EdDSA (`eddsa.rs`) and ECDSA
(`ecdsa.rs`) key pairs, builders, signing states and verification states.

Bytes are modelled as `List Nat`.  The external cryptographic primitive
provider (the `ring` crate) is a black box per the design document; it is
modelled as a structure of pure functions, parameterised by the type of
provider-side parsed key pairs.  Randomness consumed by the provider is
surfaced as an explicit argument.  Fallible operations return
`Except CryptoError`.
-/

/-- Modelled from the spec: the closed enumeration of supported signature
schemes (`SignatureAlgorithm` lives in the missing `signature.rs`); the
variants named here are exactly the ones dispatched on in `eddsa.rs` and
`ecdsa.rs`. -/
inductive SignatureAlgorithm
  | ECDSA_P256_SHA256
  | ECDSA_P384_SHA384
  | Ed25519
deriving DecidableEq, Repr

/-- Modelled from the spec: the key-pair encoding kinds (the enum lives in the
missing `handles.rs`/`signature.rs`); only the structured private-key encoding
`PKCS8` is accepted by the builders, so one representative alternative kind is
enough alongside it. -/
inductive KeyPairEncoding
  | PKCS8
  | Raw
  | PEM
deriving DecidableEq, Repr

/-- Modelled from the spec: the error taxonomy (`error.rs` is missing from the
sources).  The correspondence with the concrete errors raised in the two
source files is:
`Unsupported` = `CryptoError::NotAvailable` (eddsa.rs) and the anyhow strings
"Unsupported" / "Unsupported signature system" (ecdsa.rs);
`InvalidKey` = `CryptoError::InvalidKey` and anyhow "Invalid key pair";
`RNGFailure` = `CryptoError::RNGError` and anyhow "RNG error";
`SigningFailure` = anyhow "Unable to sign";
`VerificationFailed` = `CryptoError::VerificationFailed`;
`InvalidHandle` is the registry lookup failure. -/
inductive CryptoError
  | Unsupported
  | InvalidKey
  | RNGFailure
  | SigningFailure
  | VerificationFailed
  | InvalidHandle
deriving DecidableEq, Repr

/-- Model of `zeroize::Zeroize` on a byte vector: every byte is overwritten
with zero in place, so the length is preserved. -/
def zeroize (v : List Nat) : List Nat :=
  v.map (fun _ => 0)

/-- Model of the Ed25519 part of the external provider (`ring`): PKCS8
parsing, public-key extraction, deterministic signing (the provider's Ed25519
signing routine takes no randomness source), raw verification, and PKCS8
generation from a randomness draw.  `K` is the type of provider-side parsed
key pairs (`ring::signature::Ed25519KeyPair`). -/
structure Ed25519Ring (K : Type) where
  from_pkcs8 : List Nat → Option K
  public_key : K → List Nat
  sign : K → List Nat → List Nat
  verify : List Nat → List Nat → List Nat → Bool
  generate_pkcs8 : Nat → Option (List Nat)

/-- `EdDSASignatureKeyPair` (eddsa.rs:24): algorithm tag, stored encoded
private-key bytes, and the provider-side parsed key pair. -/
structure EdDSASignatureKeyPair (K : Type) where
  alg : SignatureAlgorithm
  pkcs8 : List Nat
  ring_kp : K
deriving DecidableEq, Repr

/-- `EdDSASignatureKeyPair::from_pkcs8` (eddsa.rs:31): ask the provider to
parse the bytes, fail with `InvalidKey` if it rejects them, otherwise store
the algorithm tag, a copy of the encoded bytes and the parsed key. -/
def EdDSASignatureKeyPair.from_pkcs8 {K : Type} (ring : Ed25519Ring K)
    (alg : SignatureAlgorithm) (pkcs8 : List Nat) :
    Except CryptoError (EdDSASignatureKeyPair K) :=
  match ring.from_pkcs8 pkcs8 with
  | none => .error .InvalidKey
  | some ring_kp => .ok { alg := alg, pkcs8 := pkcs8, ring_kp := ring_kp }

/-- `EdDSASignatureKeyPair::as_pkcs8` (eddsa.rs:42): returns the stored
encoded bytes verbatim; never fails. -/
def EdDSASignatureKeyPair.as_pkcs8 {K : Type} (kp : EdDSASignatureKeyPair K) :
    Except CryptoError (List Nat) :=
  .ok kp.pkcs8

/-- `EdDSASignatureKeyPair::generate` (eddsa.rs:46): draw a fresh PKCS8
document from the provider (fails with `RNGFailure` if the randomness source
fails), then parse it with `from_pkcs8`. -/
def EdDSASignatureKeyPair.generate {K : Type} (ring : Ed25519Ring K)
    (alg : SignatureAlgorithm) (rng : Nat) :
    Except CryptoError (EdDSASignatureKeyPair K) :=
  match ring.generate_pkcs8 rng with
  | none => .error .RNGFailure
  | some pkcs8 => EdDSASignatureKeyPair.from_pkcs8 ring alg pkcs8

/-- `EdDSASignatureKeyPair::raw_public_key` (eddsa.rs:53): the public
component derived by the provider from the parsed key pair. -/
def EdDSASignatureKeyPair.raw_public_key {K : Type} (ring : Ed25519Ring K)
    (kp : EdDSASignatureKeyPair K) : List Nat :=
  ring.public_key kp.ring_kp

/-- `impl Drop for EdDSASignatureKeyPair` (eddsa.rs:58): on destruction the
stored encoded private bytes are zeroized; the result records the final
contents of the object's fields at the moment the storage is released. -/
def EdDSASignatureKeyPair.drop {K : Type} (kp : EdDSASignatureKeyPair K) :
    EdDSASignatureKeyPair K :=
  { kp with pkcs8 := zeroize kp.pkcs8 }

/-- `EdDSASignature` (eddsa.rs:96): opaque byte-sequence wrapper, byte-wise
equality. -/
structure EdDSASignature where
  encoded : List Nat
deriving DecidableEq, Repr

/-- `EdDSASignaturePublicKey` (eddsa.rs:169): algorithm tag plus raw public
key bytes. -/
structure EdDSASignaturePublicKey where
  alg : SignatureAlgorithm
  raw : List Nat
deriving DecidableEq, Repr

/-- `EdDSASignaturePublicKey::from_raw` (eddsa.rs:175). -/
def EdDSASignaturePublicKey.from_raw (alg : SignatureAlgorithm)
    (raw : List Nat) : Except CryptoError EdDSASignaturePublicKey :=
  .ok { alg := alg, raw := raw }

/-- `EdDSASignaturePublicKey::as_raw` (eddsa.rs:183): never fails. -/
def EdDSASignaturePublicKey.as_raw (pk : EdDSASignaturePublicKey) :
    Except CryptoError (List Nat) :=
  .ok pk.raw

/-- `EdDSASignatureState` (eddsa.rs:111): a key pair plus the mutex-protected
accumulation buffer, modelled by explicit state passing. -/
structure EdDSASignatureState (K : Type) where
  kp : EdDSASignatureKeyPair K
  input : List Nat
deriving DecidableEq, Repr

/-- `EdDSASignatureState::new` (eddsa.rs:117): empty buffer. -/
def EdDSASignatureState.new {K : Type} (kp : EdDSASignatureKeyPair K) :
    EdDSASignatureState K :=
  { kp := kp, input := [] }

/-- `EdDSASignatureState::update` (eddsa.rs:124): append to the buffer; the
Rust method always returns `Ok(())`, so the model returns the new state. -/
def EdDSASignatureState.update {K : Type} (st : EdDSASignatureState K)
    (input : List Nat) : EdDSASignatureState K :=
  { st with input := st.input ++ input }

/-- `EdDSASignatureState::sign` (eddsa.rs:129): sign the accumulated buffer
with the provider's deterministic Ed25519 routine (no randomness is drawn).
The state is returned alongside the signature: the method only reads the
buffer under the lock, so the returned state is unchanged. -/
def EdDSASignatureState.sign {K : Type} (ring : Ed25519Ring K)
    (st : EdDSASignatureState K) :
    Except CryptoError (EdDSASignature × EdDSASignatureState K) :=
  .ok ({ encoded := ring.sign st.kp.ring_kp st.input }, st)

/-- `EdDSASignatureVerificationState` (eddsa.rs:138): a public key plus the
accumulation buffer. -/
structure EdDSASignatureVerificationState where
  pk : EdDSASignaturePublicKey
  input : List Nat
deriving DecidableEq, Repr

/-- `EdDSASignatureVerificationState::new` (eddsa.rs:144). -/
def EdDSASignatureVerificationState.new (pk : EdDSASignaturePublicKey) :
    EdDSASignatureVerificationState :=
  { pk := pk, input := [] }

/-- `EdDSASignatureVerificationState::update` (eddsa.rs:151): append. -/
def EdDSASignatureVerificationState.update
    (st : EdDSASignatureVerificationState) (input : List Nat) :
    EdDSASignatureVerificationState :=
  { st with input := st.input ++ input }

/-- `EdDSASignatureVerificationState::verify` (eddsa.rs:156): first dispatch
on the public key's algorithm tag — anything other than `Ed25519` fails with
`Unsupported` (`CryptoError::NotAvailable` in the source) before the buffer or
signature is looked at; then the provider verifies the accumulated buffer
against the candidate signature under the raw public key, and any mismatch is
mapped to the single undifferentiated `VerificationFailed`. -/
def EdDSASignatureVerificationState.verify {K : Type} (ring : Ed25519Ring K)
    (st : EdDSASignatureVerificationState) (signature : EdDSASignature) :
    Except CryptoError Unit :=
  match st.pk.alg with
  | .Ed25519 =>
      if ring.verify st.pk.raw st.input signature.encoded then
        .ok ()
      else
        .error .VerificationFailed
  | _ => .error .Unsupported

/-- `ring::signature::EcdsaSigningAlgorithm` values used by `ecdsa.rs`:
the two fixed-signing algorithms selected by `ring_alg_from_alg`. -/
inductive EcdsaSigningAlgorithm
  | ECDSA_P256_SHA256_FIXED_SIGNING
  | ECDSA_P384_SHA384_FIXED_SIGNING
deriving DecidableEq, Repr

/-- Model of the ECDSA part of the external provider (`ring`): PKCS8 parsing
under a signing algorithm, PKCS8 generation from a randomness draw, and
randomized signing (the provider's ECDSA signing routine draws a fresh nonce,
surfaced here as the explicit `Nat` randomness argument).  `public_key` is
modelled from the spec's provider contract `provider.publicKeyOf` —
`ecdsa.rs` itself has no raw-public-key accessor. -/
structure EcdsaRing (K : Type) where
  from_pkcs8 : EcdsaSigningAlgorithm → List Nat → Option K
  generate_pkcs8 : EcdsaSigningAlgorithm → Nat → Option (List Nat)
  sign : K → Nat → List Nat → Option (List Nat)
  public_key : K → List Nat

/-- `ECDSASignatureKeyPair` (ecdsa.rs:23): algorithm tag, stored encoded
private-key bytes, and the provider-side parsed key pair. -/
structure ECDSASignatureKeyPair (K : Type) where
  alg : SignatureAlgorithm
  pkcs8 : List Nat
  ring_kp : K
deriving DecidableEq, Repr

/-- `impl Drop for ECDSASignatureKeyPair` (ecdsa.rs:29): on destruction the
stored encoded private bytes are zeroized. -/
def ECDSASignatureKeyPair.drop {K : Type} (kp : ECDSASignatureKeyPair K) :
    ECDSASignatureKeyPair K :=
  { kp with pkcs8 := zeroize kp.pkcs8 }

/-- `ECDSASignatureKeyPair::ring_alg_from_alg` (ecdsa.rs:36): map the
algorithm identifier to the provider's signing algorithm; anything outside
the two ECDSA variants fails with `Unsupported` (anyhow "Unsupported
signature system" in the source). -/
def ECDSASignatureKeyPair.ring_alg_from_alg (alg : SignatureAlgorithm) :
    Except CryptoError EcdsaSigningAlgorithm :=
  match alg with
  | .ECDSA_P256_SHA256 => .ok .ECDSA_P256_SHA256_FIXED_SIGNING
  | .ECDSA_P384_SHA384 => .ok .ECDSA_P384_SHA384_FIXED_SIGNING
  | _ => .error .Unsupported

/-- `ECDSASignatureKeyPair::from_pkcs8` (ecdsa.rs:51): resolve the provider
signing algorithm, ask the provider to parse the bytes under it, fail with
`InvalidKey` (anyhow "Invalid key pair") if it rejects them, otherwise store
the algorithm tag, a copy of the encoded bytes and the parsed key. -/
def ECDSASignatureKeyPair.from_pkcs8 {K : Type} (ring : EcdsaRing K)
    (alg : SignatureAlgorithm) (pkcs8 : List Nat) :
    Except CryptoError (ECDSASignatureKeyPair K) :=
  match ECDSASignatureKeyPair.ring_alg_from_alg alg with
  | .error e => .error e
  | .ok ring_alg =>
    match ring.from_pkcs8 ring_alg pkcs8 with
    | none => .error .InvalidKey
    | some ring_kp => .ok { alg := alg, pkcs8 := pkcs8, ring_kp := ring_kp }

/-- `ECDSASignatureKeyPair::as_pkcs8` (ecdsa.rs:63): returns the stored
encoded bytes verbatim; never fails. -/
def ECDSASignatureKeyPair.as_pkcs8 {K : Type} (kp : ECDSASignatureKeyPair K) :
    Except CryptoError (List Nat) :=
  .ok kp.pkcs8

/-- `ECDSASignatureKeyPair::generate` (ecdsa.rs:67): resolve the provider
signing algorithm, draw a fresh PKCS8 document from the provider (fails with
`RNGFailure` on a randomness failure), then parse it with `from_pkcs8`. -/
def ECDSASignatureKeyPair.generate {K : Type} (ring : EcdsaRing K)
    (alg : SignatureAlgorithm) (rng : Nat) :
    Except CryptoError (ECDSASignatureKeyPair K) :=
  match ECDSASignatureKeyPair.ring_alg_from_alg alg with
  | .error e => .error e
  | .ok ring_alg =>
    match ring.generate_pkcs8 ring_alg rng with
    | none => .error .RNGFailure
    | some pkcs8 => ECDSASignatureKeyPair.from_pkcs8 ring alg pkcs8

/-- Modelled from the spec: `provider.publicKeyOf(parsedKeyHandle)` for the
ECDSA family; the accessor itself is not in `ecdsa.rs`, only the provider-side
parsed key it would be derived from. -/
def ECDSASignatureKeyPair.raw_public_key {K : Type} (ring : EcdsaRing K)
    (kp : ECDSASignatureKeyPair K) : List Nat :=
  ring.public_key kp.ring_kp

/-- `ECDSASignature` (ecdsa.rs:114): opaque byte-sequence wrapper, byte-wise
equality. -/
structure ECDSASignature where
  encoded : List Nat
deriving DecidableEq, Repr

/-- `ECDSASignatureState` (ecdsa.rs:108): a key pair plus the mutex-protected
accumulation buffer, modelled by explicit state passing. -/
structure ECDSASignatureState (K : Type) where
  kp : ECDSASignatureKeyPair K
  input : List Nat
deriving DecidableEq, Repr

/-- `ECDSASignatureState::new` (ecdsa.rs:123): empty buffer. -/
def ECDSASignatureState.new {K : Type} (kp : ECDSASignatureKeyPair K) :
    ECDSASignatureState K :=
  { kp := kp, input := [] }

/-- `ECDSASignatureState::update` (ecdsa.rs:130): append to the buffer; the
Rust method always returns `Ok(())`, so the model returns the new state. -/
def ECDSASignatureState.update {K : Type} (st : ECDSASignatureState K)
    (input : List Nat) : ECDSASignatureState K :=
  { st with input := st.input ++ input }

/-- `ECDSASignatureState::sign` (ecdsa.rs:135): draw fresh randomness (the
explicit `rng` argument) and sign the accumulated buffer; a provider failure
is `SigningFailure` (anyhow "Unable to sign").  The state is returned
alongside the signature: the method only reads the buffer under the lock, so
the returned state is unchanged. -/
def ECDSASignatureState.sign {K : Type} (ring : EcdsaRing K)
    (st : ECDSASignatureState K) (rng : Nat) :
    Except CryptoError (ECDSASignature × ECDSASignatureState K) :=
  match ring.sign st.kp.ring_kp rng st.input with
  | none => .error .SigningFailure
  | some signature_u8 => .ok ({ encoded := signature_u8 }, st)

/-- Modelled from the spec: handles are opaque process-unique tokens. -/
abbrev Handle := Nat

/-- Modelled from the spec: the handle registry (`handles.rs` and the
`WASI_CRYPTO_CTX` keypair manager are missing from the sources) — a
concurrency-safe map from freshly minted handles to live objects; `next` is
the generation counter, so a live handle value is never reused.  New entries
are placed at the head of the association list. -/
structure HandleManager (α : Type) where
  next : Handle
  objects : List (Handle × α)

/-- Modelled from the spec: `register(object) -> Handle` stores the object
under a freshly minted handle. -/
def HandleManager.register {α : Type} (m : HandleManager α) (x : α) :
    Handle × HandleManager α :=
  (m.next, { next := m.next + 1, objects := (m.next, x) :: m.objects })

/-- Modelled from the spec: `get(handle)` returns the object or fails with
`InvalidHandle` if the handle is unknown or was already released. -/
def HandleManager.get {α : Type} (m : HandleManager α) (h : Handle) :
    Except CryptoError α :=
  match m.objects.lookup h with
  | none => .error .InvalidHandle
  | some x => .ok x

/-- `SignatureKeyPair` (missing `signature_keypair.rs`): the tagged variant
over the algorithm families, as registered with the keypair manager.  `KE`
and `KC` are the provider-side parsed-key types of the two families. -/
inductive SignatureKeyPair (KE KC : Type)
  | EdDSA : EdDSASignatureKeyPair KE → SignatureKeyPair KE KC
  | ECDSA : ECDSASignatureKeyPair KC → SignatureKeyPair KE KC
deriving DecidableEq, Repr

/-- The stored encoded private bytes of either family (`as_pkcs8`). -/
def SignatureKeyPair.as_pkcs8 {KE KC : Type} (kp : SignatureKeyPair KE KC) :
    Except CryptoError (List Nat) :=
  match kp with
  | .EdDSA kp => kp.as_pkcs8
  | .ECDSA kp => kp.as_pkcs8

/-- The two provider models bundled, for operations that dispatch across
algorithm families. -/
structure Providers (KE KC : Type) where
  ed : Ed25519Ring KE
  ec : EcdsaRing KC

/-- The raw public key of either family (`raw_public_key`, and for ECDSA the
spec's `provider.publicKeyOf`). -/
def SignatureKeyPair.raw_public_key {KE KC : Type} (p : Providers KE KC)
    (kp : SignatureKeyPair KE KC) : List Nat :=
  match kp with
  | .EdDSA kp => kp.raw_public_key p.ed
  | .ECDSA kp => kp.raw_public_key p.ec

/-- `EdDSASignatureKeyPairBuilder` (eddsa.rs:65). -/
structure EdDSASignatureKeyPairBuilder where
  alg : SignatureAlgorithm
deriving DecidableEq, Repr

/-- `EdDSASignatureKeyPairBuilder::new` (eddsa.rs:70). -/
def EdDSASignatureKeyPairBuilder.new (alg : SignatureAlgorithm) :
    EdDSASignatureKeyPairBuilder :=
  { alg := alg }

/-- `EdDSASignatureKeyPairBuilder::generate` (eddsa.rs:74): generate a key
pair for the builder's algorithm and register it with the keypair manager
(the `WASI_CRYPTO_CTX` registry, threaded explicitly). -/
def EdDSASignatureKeyPairBuilder.generate {KE KC : Type}
    (b : EdDSASignatureKeyPairBuilder) (ring : Ed25519Ring KE) (rng : Nat)
    (m : HandleManager (SignatureKeyPair KE KC)) :
    Except CryptoError (Handle × HandleManager (SignatureKeyPair KE KC)) :=
  match EdDSASignatureKeyPair.generate ring b.alg rng with
  | .error e => .error e
  | .ok kp => .ok (m.register (SignatureKeyPair.EdDSA kp))

/-- `EdDSASignatureKeyPairBuilder::import` (eddsa.rs:82): any encoding kind
other than `PKCS8` fails with `Unsupported` (`CryptoError::NotAvailable` in
the source) before the bytes are looked at; otherwise parse with
`from_pkcs8` and register the key pair. -/
def EdDSASignatureKeyPairBuilder.import {KE KC : Type}
    (b : EdDSASignatureKeyPairBuilder) (ring : Ed25519Ring KE)
    (encoded : List Nat) (encoding : KeyPairEncoding)
    (m : HandleManager (SignatureKeyPair KE KC)) :
    Except CryptoError (Handle × HandleManager (SignatureKeyPair KE KC)) :=
  match encoding with
  | .PKCS8 =>
    match EdDSASignatureKeyPair.from_pkcs8 ring b.alg encoded with
    | .error e => .error e
    | .ok kp => .ok (m.register (SignatureKeyPair.EdDSA kp))
  | _ => .error .Unsupported

/-- `ECDSASignatureKeyPairBuilder` (ecdsa.rs:77). -/
structure ECDSASignatureKeyPairBuilder where
  alg : SignatureAlgorithm
deriving DecidableEq, Repr

/-- `ECDSASignatureKeyPairBuilder::new` (ecdsa.rs:82). -/
def ECDSASignatureKeyPairBuilder.new (alg : SignatureAlgorithm) :
    ECDSASignatureKeyPairBuilder :=
  { alg := alg }

/-- `ECDSASignatureKeyPairBuilder::generate` (ecdsa.rs:86). -/
def ECDSASignatureKeyPairBuilder.generate {KE KC : Type}
    (b : ECDSASignatureKeyPairBuilder) (ring : EcdsaRing KC) (rng : Nat)
    (m : HandleManager (SignatureKeyPair KE KC)) :
    Except CryptoError (Handle × HandleManager (SignatureKeyPair KE KC)) :=
  match ECDSASignatureKeyPair.generate ring b.alg rng with
  | .error e => .error e
  | .ok kp => .ok (m.register (SignatureKeyPair.ECDSA kp))

/-- `ECDSASignatureKeyPairBuilder::import` (ecdsa.rs:94): any encoding kind
other than `PKCS8` fails with `Unsupported` (anyhow "Unsupported" in the
source) before the bytes are looked at; otherwise parse with `from_pkcs8`
and register the key pair. -/
def ECDSASignatureKeyPairBuilder.import {KE KC : Type}
    (b : ECDSASignatureKeyPairBuilder) (ring : EcdsaRing KC)
    (encoded : List Nat) (encoding : KeyPairEncoding)
    (m : HandleManager (SignatureKeyPair KE KC)) :
    Except CryptoError (Handle × HandleManager (SignatureKeyPair KE KC)) :=
  match encoding with
  | .PKCS8 =>
    match ECDSASignatureKeyPair.from_pkcs8 ring b.alg encoded with
    | .error e => .error e
    | .ok kp => .ok (m.register (SignatureKeyPair.ECDSA kp))
  | _ => .error .Unsupported

/-- Modelled from the spec: the caller-facing `importKeyPair` dispatch (the
missing `signature_keypair.rs` routes an algorithm identifier to its family's
builder as a pure function of the identifier). -/
def importKeyPair {KE KC : Type} (p : Providers KE KC)
    (alg : SignatureAlgorithm) (encoded : List Nat)
    (encoding : KeyPairEncoding) (m : HandleManager (SignatureKeyPair KE KC)) :
    Except CryptoError (Handle × HandleManager (SignatureKeyPair KE KC)) :=
  match alg with
  | .Ed25519 =>
      (EdDSASignatureKeyPairBuilder.new alg).import p.ed encoded encoding m
  | .ECDSA_P256_SHA256 =>
      (ECDSASignatureKeyPairBuilder.new alg).import p.ec encoded encoding m
  | .ECDSA_P384_SHA384 =>
      (ECDSASignatureKeyPairBuilder.new alg).import p.ec encoded encoding m

/-- Modelled from the spec: the caller-facing `buildKeyPair` dispatch. -/
def buildKeyPair {KE KC : Type} (p : Providers KE KC)
    (alg : SignatureAlgorithm) (rng : Nat)
    (m : HandleManager (SignatureKeyPair KE KC)) :
    Except CryptoError (Handle × HandleManager (SignatureKeyPair KE KC)) :=
  match alg with
  | .Ed25519 =>
      (EdDSASignatureKeyPairBuilder.new alg).generate p.ed rng m
  | .ECDSA_P256_SHA256 =>
      (ECDSASignatureKeyPairBuilder.new alg).generate p.ec rng m
  | .ECDSA_P384_SHA384 =>
      (ECDSASignatureKeyPairBuilder.new alg).generate p.ec rng m

/-- `true` exactly when the provider rejects `encoded` as a key pair for
`alg`: for `Ed25519` the Ed25519 PKCS8 parser, for the ECDSA variants the
ECDSA PKCS8 parser under the corresponding `ring` signing algorithm. -/
def providerRejects {KE KC : Type} (p : Providers KE KC)
    (alg : SignatureAlgorithm) (encoded : List Nat) : Bool :=
  match alg with
  | .Ed25519 => (p.ed.from_pkcs8 encoded).isNone
  | .ECDSA_P256_SHA256 =>
      (p.ec.from_pkcs8 .ECDSA_P256_SHA256_FIXED_SIGNING encoded).isNone
  | .ECDSA_P384_SHA384 =>
      (p.ec.from_pkcs8 .ECDSA_P384_SHA384_FIXED_SIGNING encoded).isNone

/-- A concrete instantiation of the Ed25519 provider model (parsed keys are
the nonempty PKCS8 documents themselves), used to evaluate theorems at
concrete inputs. -/
def toyEd : Ed25519Ring (List Nat) where
  from_pkcs8 := fun b => if b = [] then none else some b
  public_key := fun k => k
  sign := fun k m => k ++ m
  verify := fun pk m s => decide (s = pk ++ m)
  generate_pkcs8 := fun n => some [n + 1]

/-- A concrete instantiation of the ECDSA provider model. -/
def toyEc : EcdsaRing (List Nat) where
  from_pkcs8 := fun _ b => if b = [] then none else some b
  generate_pkcs8 := fun _ n => some [n + 1]
  sign := fun k rng m => some (rng :: (k ++ m))
  public_key := fun k => k

/-- The two toy providers bundled. -/
def toyProviders : Providers (List Nat) (List Nat) :=
  { ed := toyEd, ec := toyEc }

/-- An empty keypair manager over the toy providers' key types. -/
def emptyManager : HandleManager (SignatureKeyPair (List Nat) (List Nat)) :=
  { next := 0, objects := [] }

lemma manager_get_register {α : Type} (m : HandleManager α) (x : α) :
    ((m.register x).2).get (m.register x).1 = .ok x := by
  simp [HandleManager.register, HandleManager.get, List.lookup]

lemma eddsa_from_pkcs8_ok {K : Type} (ring : Ed25519Ring K)
    (alg : SignatureAlgorithm) (bytes : List Nat)
    (kp : EdDSASignatureKeyPair K) :
    EdDSASignatureKeyPair.from_pkcs8 ring alg bytes = .ok kp ↔
      ring.from_pkcs8 bytes = some kp.ring_kp ∧ kp.alg = alg ∧
        kp.pkcs8 = bytes := by
  unfold EdDSASignatureKeyPair.from_pkcs8
  cases h : ring.from_pkcs8 bytes with
  | none => simp
  | some k =>
    cases kp with
    | mk a pb rk =>
      constructor
      · intro h2
        simp only [Except.ok.injEq] at h2
        cases h2
        simp
      · rintro ⟨h1, h2, h3⟩
        simp only [Option.some.injEq] at h1
        subst h1; subst h2; subst h3
        rfl

lemma eddsa_generate_ok {K : Type} (ring : Ed25519Ring K)
    (alg : SignatureAlgorithm) (rng : Nat) (kp : EdDSASignatureKeyPair K) :
    EdDSASignatureKeyPair.generate ring alg rng = .ok kp ↔
      ∃ doc, ring.generate_pkcs8 rng = some doc ∧
        EdDSASignatureKeyPair.from_pkcs8 ring alg doc = .ok kp := by
  unfold EdDSASignatureKeyPair.generate
  cases h : ring.generate_pkcs8 rng <;> simp

lemma ecdsa_from_pkcs8_ok {K : Type} (ring : EcdsaRing K)
    (alg : SignatureAlgorithm) (ring_alg : EcdsaSigningAlgorithm)
    (bytes : List Nat) (kp : ECDSASignatureKeyPair K)
    (halg : ECDSASignatureKeyPair.ring_alg_from_alg alg = .ok ring_alg) :
    ECDSASignatureKeyPair.from_pkcs8 ring alg bytes = .ok kp ↔
      ring.from_pkcs8 ring_alg bytes = some kp.ring_kp ∧ kp.alg = alg ∧
        kp.pkcs8 = bytes := by
  unfold ECDSASignatureKeyPair.from_pkcs8
  rw [halg]
  cases kp with
  | mk a pb rk =>
    cases h : ring.from_pkcs8 ring_alg bytes with
    | none => simp [h]
    | some k =>
      simp only [h, Except.ok.injEq, ECDSASignatureKeyPair.mk.injEq,
        Option.some.injEq]
      constructor <;>
        (rintro ⟨h1, h2, h3⟩; refine ⟨?_, ?_, ?_⟩ <;> simp_all)

lemma ecdsa_generate_ok {K : Type} (ring : EcdsaRing K)
    (alg : SignatureAlgorithm) (ring_alg : EcdsaSigningAlgorithm)
    (rng : Nat) (kp : ECDSASignatureKeyPair K)
    (halg : ECDSASignatureKeyPair.ring_alg_from_alg alg = .ok ring_alg) :
    ECDSASignatureKeyPair.generate ring alg rng = .ok kp ↔
      ∃ doc, ring.generate_pkcs8 ring_alg rng = some doc ∧
        ECDSASignatureKeyPair.from_pkcs8 ring alg doc = .ok kp := by
  unfold ECDSASignatureKeyPair.generate
  rw [halg]
  cases h : ring.generate_pkcs8 ring_alg rng <;> simp [h]

/-- C1: for every key pair (EdDSA or ECDSA), destruction overwrites the
stored encoded private-key (PKCS8) bytes with zero bytes — every byte of the
buffer is zero afterwards and the buffer's length (the underlying storage) is
unchanged, while the other fields are untouched by the zeroing step. -/
theorem keypair_drop_zeroizes_private_bytes {KE KC : Type}
    (ekp : EdDSASignatureKeyPair KE) (ckp : ECDSASignatureKeyPair KC) :
    (ekp.drop.pkcs8.length = ekp.pkcs8.length ∧
      (∀ b ∈ ekp.drop.pkcs8, b = 0) ∧
      ekp.drop.alg = ekp.alg ∧ ekp.drop.ring_kp = ekp.ring_kp) ∧
    (ckp.drop.pkcs8.length = ckp.pkcs8.length ∧
      (∀ b ∈ ckp.drop.pkcs8, b = 0) ∧
      ckp.drop.alg = ckp.alg ∧ ckp.drop.ring_kp = ckp.ring_kp) := by
  constructor <;>
    simp [EdDSASignatureKeyPair.drop, ECDSASignatureKeyPair.drop, zeroize,
      List.mem_map]

/-- C4: for every signing or verification state (EdDSA signing, EdDSA
verification, ECDSA signing) and all byte sequences `a` and `b`,
`update a` followed by `update b` leaves exactly the state a single
`update (a ++ b)` leaves, so a subsequent finalize produces the same
result. -/
theorem update_append_assoc {KE KC : Type} (ring : Ed25519Ring KE)
    (s1 : EdDSASignatureState KE) (s2 : EdDSASignatureVerificationState)
    (s3 : ECDSASignatureState KC) (a b : List Nat) :
    ((s1.update a).update b = s1.update (a ++ b)) ∧
    ((s2.update a).update b = s2.update (a ++ b)) ∧
    ((s3.update a).update b = s3.update (a ++ b)) ∧
    ((s1.update a).update b).sign ring = (s1.update (a ++ b)).sign ring := by
  simp [EdDSASignatureState.update, EdDSASignatureVerificationState.update,
    ECDSASignatureState.update]

/-- C5: for both algorithm families and every encoded byte sequence, import
with an encoding kind other than `PKCS8` fails with `Unsupported`
(`CryptoError::NotAvailable` in eddsa.rs, anyhow "Unsupported" in
ecdsa.rs). -/
theorem import_rejects_unsupported_encoding {KE KC : Type}
    (p : Providers KE KC) (alg : SignatureAlgorithm) (encoded : List Nat)
    (encoding : KeyPairEncoding)
    (m : HandleManager (SignatureKeyPair KE KC))
    (hne : encoding ≠ KeyPairEncoding.PKCS8) :
    importKeyPair p alg encoded encoding m =
      .error CryptoError.Unsupported := by
  cases alg <;> cases encoding <;>
    simp_all [importKeyPair, EdDSASignatureKeyPairBuilder.import,
      ECDSASignatureKeyPairBuilder.import, EdDSASignatureKeyPairBuilder.new,
      ECDSASignatureKeyPairBuilder.new]

/-- Evaluation of `import_rejects_unsupported_encoding` at a concrete input:
the toy providers, the Ed25519 algorithm, the `Raw` encoding kind and the
empty manager. -/
theorem import_rejects_unsupported_encoding_witness :
    importKeyPair toyProviders SignatureAlgorithm.Ed25519 [1, 2, 3]
      KeyPairEncoding.Raw emptyManager = .error CryptoError.Unsupported :=
  import_rejects_unsupported_encoding toyProviders SignatureAlgorithm.Ed25519
    [1, 2, 3] KeyPairEncoding.Raw emptyManager (by decide)

/-- C8: for every verification state whose public key carries an algorithm
identifier other than `Ed25519`, `verify` fails with `Unsupported`
(`CryptoError::NotAvailable` in the source), regardless of the accumulated
buffer and the candidate signature. -/
theorem verify_alg_mismatch_unsupported {K : Type} (ring : Ed25519Ring K)
    (st : EdDSASignatureVerificationState) (sig : EdDSASignature)
    (hne : st.pk.alg ≠ SignatureAlgorithm.Ed25519) :
    st.verify ring sig = .error CryptoError.Unsupported := by
  unfold EdDSASignatureVerificationState.verify
  cases h : st.pk.alg <;> simp_all

/-- Evaluation of `verify_alg_mismatch_unsupported` at a concrete input: the
toy provider, a public key tagged `ECDSA_P256_SHA256`, a nonempty buffer and
a candidate signature that would otherwise verify. -/
theorem verify_alg_mismatch_unsupported_witness :
    EdDSASignatureVerificationState.verify toyEd
      { pk := { alg := SignatureAlgorithm.ECDSA_P256_SHA256, raw := [7] },
        input := [1, 2] }
      { encoded := [7, 1, 2] } = .error CryptoError.Unsupported :=
  verify_alg_mismatch_unsupported toyEd
    { pk := { alg := SignatureAlgorithm.ECDSA_P256_SHA256, raw := [7] },
      input := [1, 2] }
    { encoded := [7, 1, 2] } (by decide)

/-- C2: Ed25519 signing is deterministic — any two finalize/sign calls made
while the accumulated buffer holds the same bytes, using the same key pair,
return byte-identical signatures (no randomness is drawn by the Ed25519
signing path). -/
theorem eddsa_sign_deterministic {K : Type} (ring : Ed25519Ring K)
    (st st' : EdDSASignatureState K) (sig1 sig2 : EdDSASignature)
    (st1 st2 : EdDSASignatureState K)
    (hkp : st.kp = st'.kp) (hbuf : st.input = st'.input)
    (h1 : st.sign ring = .ok (sig1, st1))
    (h2 : st'.sign ring = .ok (sig2, st2)) :
    sig1 = sig2 := by
  unfold EdDSASignatureState.sign at h1 h2
  simp only [Except.ok.injEq, Prod.mk.injEq] at h1 h2
  rw [← h1.1, ← h2.1, hkp, hbuf]

/-- Evaluation of `eddsa_sign_deterministic` at a concrete input: two
toy-provider signing states over the same key pair and the same buffer
contents, reached by different update sequences. -/
theorem eddsa_sign_deterministic_witness :
    EdDSASignatureState.sign toyEd
      { kp := { alg := SignatureAlgorithm.Ed25519, pkcs8 := [9],
                ring_kp := [9] }, input := [1] ++ [2] } =
      .ok ({ encoded := [9, 1, 2] },
        { kp := { alg := SignatureAlgorithm.Ed25519, pkcs8 := [9],
                  ring_kp := [9] }, input := [1] ++ [2] }) ∧
    ({ encoded := [9, 1, 2] } : EdDSASignature) = { encoded := [9, 1, 2] } :=
  ⟨by rfl,
    eddsa_sign_deterministic toyEd
      { kp := { alg := SignatureAlgorithm.Ed25519, pkcs8 := [9],
                ring_kp := [9] }, input := [1] ++ [2] }
      { kp := { alg := SignatureAlgorithm.Ed25519, pkcs8 := [9],
                ring_kp := [9] }, input := [1, 2] }
      { encoded := [9, 1, 2] } { encoded := [9, 1, 2] }
      { kp := { alg := SignatureAlgorithm.Ed25519, pkcs8 := [9],
                ring_kp := [9] }, input := [1] ++ [2] }
      { kp := { alg := SignatureAlgorithm.Ed25519, pkcs8 := [9],
                ring_kp := [9] }, input := [1, 2] }
      (by decide) (by decide) (by rfl) (by rfl)⟩

/-- C7: verification fails with the single undifferentiated
`VerificationFailed` whenever the provider reports that the candidate
signature does not match the accumulated message under the referenced
(Ed25519-tagged) public key; any two such failing calls — wrong signature,
tampered message, or wrong key — return the very same error value. -/
theorem verify_mismatch_undifferentiated {K : Type} (ring : Ed25519Ring K)
    (st st' : EdDSASignatureVerificationState) (sig sig' : EdDSASignature)
    (halg : st.pk.alg = SignatureAlgorithm.Ed25519)
    (hmis : ring.verify st.pk.raw st.input sig.encoded = false)
    (halg' : st'.pk.alg = SignatureAlgorithm.Ed25519)
    (hmis' : ring.verify st'.pk.raw st'.input sig'.encoded = false) :
    st.verify ring sig = .error CryptoError.VerificationFailed ∧
    st.verify ring sig = st'.verify ring sig' := by
  unfold EdDSASignatureVerificationState.verify
  rw [halg, halg']
  simp [hmis, hmis']

/-- Evaluation of `verify_mismatch_undifferentiated` at concrete inputs:
under the toy provider, a wrong signature on one state and a wrong key on
another both fail, with the identical error value. -/
theorem verify_mismatch_undifferentiated_witness :
    EdDSASignatureVerificationState.verify toyEd
      { pk := { alg := SignatureAlgorithm.Ed25519, raw := [5] },
        input := [1] } { encoded := [6, 1] } =
      .error CryptoError.VerificationFailed ∧
    EdDSASignatureVerificationState.verify toyEd
      { pk := { alg := SignatureAlgorithm.Ed25519, raw := [5] },
        input := [1] } { encoded := [6, 1] } =
    EdDSASignatureVerificationState.verify toyEd
      { pk := { alg := SignatureAlgorithm.Ed25519, raw := [4] },
        input := [2] } { encoded := [5, 1] } :=
  verify_mismatch_undifferentiated toyEd
    { pk := { alg := SignatureAlgorithm.Ed25519, raw := [5] }, input := [1] }
    { pk := { alg := SignatureAlgorithm.Ed25519, raw := [4] }, input := [2] }
    { encoded := [6, 1] } { encoded := [5, 1] }
    (by decide) (by decide) (by decide) (by decide)

/-- C9: finalize/sign leaves the accumulated buffer unchanged for both the
EdDSA and the ECDSA signing state (the returned state equals the input
state), and the state accepts further `update` and `sign` calls after a
finalize, the subsequent finalize reflecting the cumulative buffer. -/
theorem sign_preserves_buffer {KE KC : Type} (ring : Ed25519Ring KE)
    (ec : EcdsaRing KC) (st : EdDSASignatureState KE)
    (cst : ECDSASignatureState KC) (rng : Nat)
    (sig : EdDSASignature) (csig2 : ECDSASignature)
    (st2 : EdDSASignatureState KE) (cst2 : ECDSASignatureState KC)
    (a : List Nat)
    (h1 : st.sign ring = .ok (sig, st2))
    (h2 : cst.sign ec rng = .ok (csig2, cst2)) :
    st2 = st ∧ cst2 = cst ∧
    (st2.update a).sign ring =
      .ok ({ encoded := ring.sign st.kp.ring_kp (st.input ++ a) },
        st.update a) := by
  unfold EdDSASignatureState.sign at h1
  unfold ECDSASignatureState.sign at h2
  simp only [Except.ok.injEq, Prod.mk.injEq] at h1
  obtain ⟨hsig, hst⟩ := h1
  subst hst
  refine ⟨rfl, ?_, rfl⟩
  cases h : ec.sign cst.kp.ring_kp rng cst.input with
  | none => rw [h] at h2; cases h2
  | some s =>
    rw [h] at h2
    simp only [Except.ok.injEq, Prod.mk.injEq] at h2
    exact h2.2.symm

/-- Evaluation of `sign_preserves_buffer` at concrete inputs under the toy
providers. -/
theorem sign_preserves_buffer_witness :
    ({ kp := { alg := SignatureAlgorithm.Ed25519, pkcs8 := [9],
               ring_kp := [9] },
       input := [1] } : EdDSASignatureState (List Nat)) =
      { kp := { alg := SignatureAlgorithm.Ed25519, pkcs8 := [9],
                ring_kp := [9] }, input := [1] } ∧
    ({ kp := { alg := SignatureAlgorithm.ECDSA_P256_SHA256, pkcs8 := [8],
               ring_kp := [8] },
       input := [3] } : ECDSASignatureState (List Nat)) =
      { kp := { alg := SignatureAlgorithm.ECDSA_P256_SHA256, pkcs8 := [8],
                ring_kp := [8] }, input := [3] } ∧
    (EdDSASignatureState.update
      { kp := { alg := SignatureAlgorithm.Ed25519, pkcs8 := [9],
                ring_kp := [9] }, input := [1] } [2]).sign toyEd =
      .ok ({ encoded := toyEd.sign [9] ([1] ++ [2]) },
        EdDSASignatureState.update
          { kp := { alg := SignatureAlgorithm.Ed25519, pkcs8 := [9],
                    ring_kp := [9] }, input := [1] } [2]) :=
  sign_preserves_buffer toyEd toyEc
    { kp := { alg := SignatureAlgorithm.Ed25519, pkcs8 := [9],
              ring_kp := [9] }, input := [1] }
    { kp := { alg := SignatureAlgorithm.ECDSA_P256_SHA256, pkcs8 := [8],
              ring_kp := [8] }, input := [3] }
    4 { encoded := [9, 1] } { encoded := [4, 8, 3] }
    { kp := { alg := SignatureAlgorithm.Ed25519, pkcs8 := [9],
              ring_kp := [9] }, input := [1] }
    { kp := { alg := SignatureAlgorithm.ECDSA_P256_SHA256, pkcs8 := [8],
              ring_kp := [8] }, input := [3] }
    [2] (by rfl) (by rfl)

/-- C10: EdDSA key-pair construction does not validate the algorithm
identifier against the family — for every `SignatureAlgorithm` value,
`from_pkcs8` succeeds whenever the provider parses the bytes as a valid
Ed25519 PKCS8 document, tagging the key pair with that identifier; a
mismatched identifier is only rejected later, at verification time, with
`Unsupported`. -/
theorem eddsa_from_pkcs8_ignores_alg {K : Type} (ring : Ed25519Ring K)
    (alg : SignatureAlgorithm) (bytes : List Nat) (k : K)
    (raw input : List Nat) (sig : EdDSASignature)
    (hparse : ring.from_pkcs8 bytes = some k)
    (hne : alg ≠ SignatureAlgorithm.Ed25519) :
    (∀ a2 : SignatureAlgorithm,
      EdDSASignatureKeyPair.from_pkcs8 ring a2 bytes =
        .ok { alg := a2, pkcs8 := bytes, ring_kp := k }) ∧
    EdDSASignatureVerificationState.verify ring
      { pk := { alg := alg, raw := raw }, input := input } sig =
      .error CryptoError.Unsupported := by
  constructor
  · intro a2
    unfold EdDSASignatureKeyPair.from_pkcs8
    rw [hparse]
  · unfold EdDSASignatureVerificationState.verify
    cases h : alg <;> simp_all

/-- Evaluation of `eddsa_from_pkcs8_ignores_alg` at concrete inputs: under
the toy provider, bytes that parse as an Ed25519 key are accepted with the
mismatched tag `ECDSA_P256_SHA256`, and verification under that tag fails
with `Unsupported`. -/
theorem eddsa_from_pkcs8_ignores_alg_witness :
    (∀ a2 : SignatureAlgorithm,
      EdDSASignatureKeyPair.from_pkcs8 toyEd a2 [3] =
        .ok { alg := a2, pkcs8 := [3], ring_kp := [3] }) ∧
    EdDSASignatureVerificationState.verify toyEd
      { pk := { alg := SignatureAlgorithm.ECDSA_P256_SHA256, raw := [3] },
        input := [1] } { encoded := [3, 1] } =
      .error CryptoError.Unsupported :=
  eddsa_from_pkcs8_ignores_alg toyEd SignatureAlgorithm.ECDSA_P256_SHA256
    [3] [3] [3] [1] { encoded := [3, 1] } (by decide) (by decide)

/-- C6: for every algorithm (dispatched to its family), import under the
`PKCS8` encoding kind fails with `InvalidKey` exactly when the provider
rejects the encoded bytes as a key pair; when the provider accepts them, the
key pair is registered under a freshly minted handle, and the handle resolves
to it. -/
theorem import_pkcs8_invalid_key_iff {KE KC : Type} (p : Providers KE KC)
    (alg : SignatureAlgorithm) (encoded : List Nat)
    (m : HandleManager (SignatureKeyPair KE KC)) :
    (importKeyPair p alg encoded KeyPairEncoding.PKCS8 m =
        .error CryptoError.InvalidKey ↔
      providerRejects p alg encoded = true) ∧
    (providerRejects p alg encoded = false →
      ∃ kp m2, importKeyPair p alg encoded KeyPairEncoding.PKCS8 m =
          .ok (m.next, m2) ∧ m2.get m.next = .ok kp) := by
  cases alg with
  | Ed25519 =>
    constructor
    · cases h : p.ed.from_pkcs8 encoded with
      | none =>
        simp [importKeyPair, EdDSASignatureKeyPairBuilder.import,
          EdDSASignatureKeyPairBuilder.new,
          EdDSASignatureKeyPair.from_pkcs8, providerRejects, h]
      | some k =>
        simp [importKeyPair, EdDSASignatureKeyPairBuilder.import,
          EdDSASignatureKeyPairBuilder.new,
          EdDSASignatureKeyPair.from_pkcs8, providerRejects, h,
          HandleManager.register]
    · intro hok
      simp only [providerRejects, Option.isNone_eq_false_iff,
        Option.isSome_iff_exists] at hok
      obtain ⟨k, hk⟩ := hok
      refine ⟨SignatureKeyPair.EdDSA
          { alg := SignatureAlgorithm.Ed25519, pkcs8 := encoded,
            ring_kp := k },
        (m.register (SignatureKeyPair.EdDSA
          { alg := SignatureAlgorithm.Ed25519, pkcs8 := encoded,
            ring_kp := k })).2, ?_, manager_get_register m _⟩
      simp [importKeyPair, EdDSASignatureKeyPairBuilder.import,
        EdDSASignatureKeyPairBuilder.new, EdDSASignatureKeyPair.from_pkcs8,
        hk, HandleManager.register]
  | ECDSA_P256_SHA256 =>
    constructor
    · cases h : p.ec.from_pkcs8 .ECDSA_P256_SHA256_FIXED_SIGNING encoded with
      | none =>
        simp [importKeyPair, ECDSASignatureKeyPairBuilder.import,
          ECDSASignatureKeyPairBuilder.new,
          ECDSASignatureKeyPair.from_pkcs8,
          ECDSASignatureKeyPair.ring_alg_from_alg, providerRejects, h]
      | some k =>
        simp [importKeyPair, ECDSASignatureKeyPairBuilder.import,
          ECDSASignatureKeyPairBuilder.new,
          ECDSASignatureKeyPair.from_pkcs8,
          ECDSASignatureKeyPair.ring_alg_from_alg, providerRejects, h,
          HandleManager.register]
    · intro hok
      simp only [providerRejects, Option.isNone_eq_false_iff,
        Option.isSome_iff_exists] at hok
      obtain ⟨k, hk⟩ := hok
      refine ⟨SignatureKeyPair.ECDSA
          { alg := SignatureAlgorithm.ECDSA_P256_SHA256, pkcs8 := encoded,
            ring_kp := k },
        (m.register (SignatureKeyPair.ECDSA
          { alg := SignatureAlgorithm.ECDSA_P256_SHA256, pkcs8 := encoded,
            ring_kp := k })).2, ?_, manager_get_register m _⟩
      simp [importKeyPair, ECDSASignatureKeyPairBuilder.import,
        ECDSASignatureKeyPairBuilder.new, ECDSASignatureKeyPair.from_pkcs8,
        ECDSASignatureKeyPair.ring_alg_from_alg, hk, HandleManager.register]
  | ECDSA_P384_SHA384 =>
    constructor
    · cases h : p.ec.from_pkcs8 .ECDSA_P384_SHA384_FIXED_SIGNING encoded with
      | none =>
        simp [importKeyPair, ECDSASignatureKeyPairBuilder.import,
          ECDSASignatureKeyPairBuilder.new,
          ECDSASignatureKeyPair.from_pkcs8,
          ECDSASignatureKeyPair.ring_alg_from_alg, providerRejects, h]
      | some k =>
        simp [importKeyPair, ECDSASignatureKeyPairBuilder.import,
          ECDSASignatureKeyPairBuilder.new,
          ECDSASignatureKeyPair.from_pkcs8,
          ECDSASignatureKeyPair.ring_alg_from_alg, providerRejects, h,
          HandleManager.register]
    · intro hok
      simp only [providerRejects, Option.isNone_eq_false_iff,
        Option.isSome_iff_exists] at hok
      obtain ⟨k, hk⟩ := hok
      refine ⟨SignatureKeyPair.ECDSA
          { alg := SignatureAlgorithm.ECDSA_P384_SHA384, pkcs8 := encoded,
            ring_kp := k },
        (m.register (SignatureKeyPair.ECDSA
          { alg := SignatureAlgorithm.ECDSA_P384_SHA384, pkcs8 := encoded,
            ring_kp := k })).2, ?_, manager_get_register m _⟩
      simp [importKeyPair, ECDSASignatureKeyPairBuilder.import,
        ECDSASignatureKeyPairBuilder.new, ECDSASignatureKeyPair.from_pkcs8,
        ECDSASignatureKeyPair.ring_alg_from_alg, hk, HandleManager.register]

/-- Evaluation of `import_pkcs8_invalid_key_iff` at a concrete input: the toy
providers, the `ECDSA_P256_SHA256` algorithm, provider-accepted bytes and
the empty manager. -/
theorem import_pkcs8_invalid_key_iff_witness :
    (importKeyPair toyProviders SignatureAlgorithm.ECDSA_P256_SHA256 [1]
        KeyPairEncoding.PKCS8 emptyManager = .error CryptoError.InvalidKey ↔
      providerRejects toyProviders SignatureAlgorithm.ECDSA_P256_SHA256 [1] =
        true) ∧
    (providerRejects toyProviders SignatureAlgorithm.ECDSA_P256_SHA256 [1] =
        false →
      ∃ kp m2, importKeyPair toyProviders
          SignatureAlgorithm.ECDSA_P256_SHA256 [1] KeyPairEncoding.PKCS8
          emptyManager = .ok (emptyManager.next, m2) ∧
        m2.get emptyManager.next = .ok kp) :=
  import_pkcs8_invalid_key_iff toyProviders
    SignatureAlgorithm.ECDSA_P256_SHA256 [1] emptyManager

lemma eddsa_roundtrip_core {KE KC : Type} (p : Providers KE KC)
    (rng : Nat) (m1 : HandleManager (SignatureKeyPair KE KC))
    (ekp : EdDSASignatureKeyPair KE)
    (hg : EdDSASignatureKeyPair.generate p.ed SignatureAlgorithm.Ed25519 rng =
      .ok ekp) :
    importKeyPair p SignatureAlgorithm.Ed25519 ekp.pkcs8
        KeyPairEncoding.PKCS8 m1 =
      .ok (m1.next,
        (m1.register (SignatureKeyPair.EdDSA ekp)).2) := by
  rw [eddsa_generate_ok] at hg
  obtain ⟨doc, hdoc, hfp⟩ := hg
  rw [eddsa_from_pkcs8_ok] at hfp
  obtain ⟨hk, halg2, hpk⟩ := hfp
  have hfp2 : EdDSASignatureKeyPair.from_pkcs8 p.ed
      SignatureAlgorithm.Ed25519 ekp.pkcs8 = .ok ekp :=
    (eddsa_from_pkcs8_ok p.ed SignatureAlgorithm.Ed25519 ekp.pkcs8 ekp).mpr
      ⟨by rw [hpk]; exact hk, halg2, rfl⟩
  simp [importKeyPair, EdDSASignatureKeyPairBuilder.import,
    EdDSASignatureKeyPairBuilder.new, hfp2, HandleManager.register]

lemma ecdsa_roundtrip_core {KE KC : Type} (p : Providers KE KC)
    (alg : SignatureAlgorithm) (ring_alg : EcdsaSigningAlgorithm)
    (rng : Nat) (m1 : HandleManager (SignatureKeyPair KE KC))
    (ckp : ECDSASignatureKeyPair KC)
    (halg : ECDSASignatureKeyPair.ring_alg_from_alg alg = .ok ring_alg)
    (hdisp : ∀ encoded encoding m,
      importKeyPair p alg encoded encoding m =
        (ECDSASignatureKeyPairBuilder.new alg).import p.ec encoded encoding m)
    (hg : ECDSASignatureKeyPair.generate p.ec alg rng = .ok ckp) :
    importKeyPair p alg ckp.pkcs8 KeyPairEncoding.PKCS8 m1 =
      .ok (m1.next,
        (m1.register (SignatureKeyPair.ECDSA ckp)).2) := by
  rw [ecdsa_generate_ok p.ec alg ring_alg rng ckp halg] at hg
  obtain ⟨doc, hdoc, hfp⟩ := hg
  rw [ecdsa_from_pkcs8_ok p.ec alg ring_alg doc ckp halg] at hfp
  obtain ⟨hk, halg2, hpk⟩ := hfp
  have hfp2 : ECDSASignatureKeyPair.from_pkcs8 p.ec alg ckp.pkcs8 =
      .ok ckp :=
    (ecdsa_from_pkcs8_ok p.ec alg ring_alg ckp.pkcs8 ckp halg).mpr
      ⟨by rw [hpk]; exact hk, halg2, rfl⟩
  rw [hdisp]
  simp [ECDSASignatureKeyPairBuilder.import,
    ECDSASignatureKeyPairBuilder.new, hfp2, HandleManager.register]

/-- C3: for every supported algorithm, importing (under the `PKCS8` encoding
kind) the encoded bytes exported from a generated key pair succeeds, and the
key pair the returned handle resolves to has the same raw public key as the
original. -/
theorem import_export_roundtrip {KE KC : Type} (p : Providers KE KC)
    (alg : SignatureAlgorithm) (rng : Nat)
    (m0 m1 : HandleManager (SignatureKeyPair KE KC)) (h0 : Handle)
    (kp : SignatureKeyPair KE KC) (bytes : List Nat)
    (hgen : buildKeyPair p alg rng m0 = .ok (h0, m1))
    (hget : m1.get h0 = .ok kp)
    (hexp : kp.as_pkcs8 = .ok bytes) :
    ∃ h2 m2 kp2,
      importKeyPair p alg bytes KeyPairEncoding.PKCS8 m1 = .ok (h2, m2) ∧
      m2.get h2 = .ok kp2 ∧
      kp2.raw_public_key p = kp.raw_public_key p := by
  cases alg with
  | Ed25519 =>
    unfold buildKeyPair EdDSASignatureKeyPairBuilder.generate
      EdDSASignatureKeyPairBuilder.new at hgen
    cases hg : EdDSASignatureKeyPair.generate p.ed
        SignatureAlgorithm.Ed25519 rng with
    | error e => rw [hg] at hgen; cases hgen
    | ok ekp =>
      rw [hg] at hgen
      simp only [Except.ok.injEq, Prod.mk.injEq, HandleManager.register]
        at hgen
      obtain ⟨hh0, hm1⟩ := hgen
      subst hh0; subst hm1
      simp only [HandleManager.get, List.lookup, beq_self_eq_true,
        Except.ok.injEq] at hget
      subst hget
      simp only [SignatureKeyPair.as_pkcs8, EdDSASignatureKeyPair.as_pkcs8,
        Except.ok.injEq] at hexp
      subst hexp
      exact ⟨_, _, SignatureKeyPair.EdDSA ekp,
        eddsa_roundtrip_core p rng _ ekp hg,
        manager_get_register _ _, rfl⟩
  | ECDSA_P256_SHA256 =>
    unfold buildKeyPair ECDSASignatureKeyPairBuilder.generate
      ECDSASignatureKeyPairBuilder.new at hgen
    cases hg : ECDSASignatureKeyPair.generate p.ec
        SignatureAlgorithm.ECDSA_P256_SHA256 rng with
    | error e => rw [hg] at hgen; cases hgen
    | ok ckp =>
      rw [hg] at hgen
      simp only [Except.ok.injEq, Prod.mk.injEq, HandleManager.register]
        at hgen
      obtain ⟨hh0, hm1⟩ := hgen
      subst hh0; subst hm1
      simp only [HandleManager.get, List.lookup, beq_self_eq_true,
        Except.ok.injEq] at hget
      subst hget
      simp only [SignatureKeyPair.as_pkcs8, ECDSASignatureKeyPair.as_pkcs8,
        Except.ok.injEq] at hexp
      subst hexp
      exact ⟨_, _, SignatureKeyPair.ECDSA ckp,
        ecdsa_roundtrip_core p SignatureAlgorithm.ECDSA_P256_SHA256
          .ECDSA_P256_SHA256_FIXED_SIGNING rng _ ckp rfl
          (fun _ _ _ => rfl) hg,
        manager_get_register _ _, rfl⟩
  | ECDSA_P384_SHA384 =>
    unfold buildKeyPair ECDSASignatureKeyPairBuilder.generate
      ECDSASignatureKeyPairBuilder.new at hgen
    cases hg : ECDSASignatureKeyPair.generate p.ec
        SignatureAlgorithm.ECDSA_P384_SHA384 rng with
    | error e => rw [hg] at hgen; cases hgen
    | ok ckp =>
      rw [hg] at hgen
      simp only [Except.ok.injEq, Prod.mk.injEq, HandleManager.register]
        at hgen
      obtain ⟨hh0, hm1⟩ := hgen
      subst hh0; subst hm1
      simp only [HandleManager.get, List.lookup, beq_self_eq_true,
        Except.ok.injEq] at hget
      subst hget
      simp only [SignatureKeyPair.as_pkcs8, ECDSASignatureKeyPair.as_pkcs8,
        Except.ok.injEq] at hexp
      subst hexp
      exact ⟨_, _, SignatureKeyPair.ECDSA ckp,
        ecdsa_roundtrip_core p SignatureAlgorithm.ECDSA_P384_SHA384
          .ECDSA_P384_SHA384_FIXED_SIGNING rng _ ckp rfl
          (fun _ _ _ => rfl) hg,
        manager_get_register _ _, rfl⟩

/-- Evaluation of `import_export_roundtrip` at a concrete input: a key pair
generated by the toy providers for Ed25519, exported and re-imported. -/
theorem import_export_roundtrip_witness :
    ∃ h2 m2 kp2,
      importKeyPair toyProviders SignatureAlgorithm.Ed25519 [6]
          KeyPairEncoding.PKCS8
          { next := 1,
            objects := [(0, SignatureKeyPair.EdDSA
              { alg := SignatureAlgorithm.Ed25519, pkcs8 := [6],
                ring_kp := [6] })] } = .ok (h2, m2) ∧
      m2.get h2 = .ok kp2 ∧
      kp2.raw_public_key toyProviders =
        SignatureKeyPair.raw_public_key toyProviders
          (SignatureKeyPair.EdDSA
            { alg := SignatureAlgorithm.Ed25519, pkcs8 := [6],
              ring_kp := [6] }) :=
  import_export_roundtrip toyProviders SignatureAlgorithm.Ed25519 5
    emptyManager
    { next := 1,
      objects := [(0, SignatureKeyPair.EdDSA
        { alg := SignatureAlgorithm.Ed25519, pkcs8 := [6],
          ring_kp := [6] })] }
    0
    (SignatureKeyPair.EdDSA
      { alg := SignatureAlgorithm.Ed25519, pkcs8 := [6], ring_kp := [6] })
    [6] (by rfl) (by rfl) (by rfl)
